import Mathlib

/-!
Shallow embedding of the rizzgpt2 backend core: the quota store
(`backend/services/quota_store.py`), the quota middleware
(`backend/middleware/quota.py`), the moderation service
(`backend/services/moderation.py`) and the generation pipeline
(`backend/routers/generate.py` with `backend/prompts.py`).

Wall-clock time is modelled as seconds since the Unix epoch (`Nat`);
"next UTC midnight" is the start of the next 86400-second day.
Stateful Python methods become explicit state-passing functions; the
in-memory quota dict becomes a total function `String → Option QuotaEntry`.
External calls (OpenAI moderation / LLM completions) become `Except`-valued
parameters supplied by the caller, matching what `asyncio.gather` with
`return_exceptions=True` hands back.
-/

/-- One entry of `QuotaStore._quotas`: `{count, reset_time}`. -/
structure QuotaEntry where
  count : Nat
  reset_time : Nat
  deriving DecidableEq, Repr

/-- The `QuotaStore._quotas` dict: device token to quota entry. -/
def QuotaState := String → Option QuotaEntry

/-- `QuotaStore._get_next_midnight_utc`: start of the day following the
current UTC day, in epoch seconds. -/
def get_next_midnight_utc (now : Nat) : Nat :=
  (now / 86400 + 1) * 86400

/-- Point update of the quota dict. -/
def QuotaState.set (s : QuotaState) (tok : String) (e : QuotaEntry) : QuotaState :=
  fun k => if k = tok then some e else s k

/-- `QuotaStore.get_usage`: 0 for an empty token; 0 for a missing entry
(no entry created); lazy in-place reset to `{count := 0, reset_time :=
next midnight}` returning 0 when `now >= reset_time`; otherwise the
stored count, state untouched. -/
def get_usage (s : QuotaState) (now : Nat) (tok : String) : Nat × QuotaState :=
  if tok = "" then (0, s)
  else
    match s tok with
    | none => (0, s)
    | some e =>
      if e.reset_time ≤ now then
        (0, s.set tok ⟨0, get_next_midnight_utc now⟩)
      else
        (e.count, s)

/-- `QuotaStore.increment_usage`: no-op returning 0 for an empty token;
creates the entry if absent, resets it if expired, then increments and
returns the new count. -/
def increment_usage (s : QuotaState) (now : Nat) (tok : String) : Nat × QuotaState :=
  if tok = "" then (0, s)
  else
    let e0 : QuotaEntry :=
      match s tok with
      | none => ⟨0, get_next_midnight_utc now⟩
      | some e => e
    let e1 : QuotaEntry :=
      if e0.reset_time ≤ now then ⟨0, get_next_midnight_utc now⟩ else e0
    let e2 : QuotaEntry := ⟨e1.count + 1, e1.reset_time⟩
    (e2.count, s.set tok e2)

/-- `QuotaStore.can_use`: current usage strictly below the limit. -/
def can_use (s : QuotaState) (now : Nat) (tok : String) (limit : Nat) :
    Bool × QuotaState :=
  let r := get_usage s now tok
  (decide (r.1 < limit), r.2)

/-- `QuotaStore.get_reset_time`: `none` for an empty token; the next UTC
midnight when no entry exists; else the stored `reset_time`. Never
mutates the store. -/
def get_reset_time (s : QuotaState) (now : Nat) (tok : String) :
    Option Nat × QuotaState :=
  if tok = "" then (none, s)
  else
    match s tok with
    | none => (some (get_next_midnight_utc now), s)
    | some e => (some e.reset_time, s)

/-- `QuotaStore.reset_quota`: force `{count := 0, reset_time := next
midnight}` only when an entry exists. -/
def reset_quota (s : QuotaState) (now : Nat) (tok : String) : QuotaState :=
  if tok = "" then s
  else
    match s tok with
    | none => s
    | some _ => s.set tok ⟨0, get_next_midnight_utc now⟩

/-- The current instant is always strictly before the next UTC midnight. -/
theorem now_lt_next_midnight (now : Nat) : now < get_next_midnight_utc now := by
  unfold get_next_midnight_utc
  have h := Nat.div_add_mod now 86400
  have h2 : now % 86400 < 86400 := Nat.mod_lt _ (by omega)
  omega

/-- C2: `get_usage` returns 0 without creating an entry when none exists;
resets an expired entry in place (count 0, next UTC midnight) and
returns 0; otherwise returns the stored count and leaves the store
unchanged. -/
theorem C2_get_usage_window_semantics (s : QuotaState) (now : Nat)
    (tok : String) (h : tok ≠ "") :
    (s tok = none → get_usage s now tok = (0, s)) ∧
    (∀ e, s tok = some e → e.reset_time ≤ now →
      (get_usage s now tok).1 = 0 ∧
      (get_usage s now tok).2 tok = some ⟨0, get_next_midnight_utc now⟩ ∧
      ∀ k, k ≠ tok → (get_usage s now tok).2 k = s k) ∧
    (∀ e, s tok = some e → now < e.reset_time →
      get_usage s now tok = (e.count, s)) := by
  refine ⟨fun hnone => ?_, fun e he hexp => ?_, fun e he hlive => ?_⟩
  · simp [get_usage, h, hnone]
  · refine ⟨?_, ?_, ?_⟩
    · simp [get_usage, h, he, hexp]
    · simp [get_usage, h, he, hexp, QuotaState.set]
    · intro k hk
      simp [get_usage, h, he, hexp, QuotaState.set, hk]
  · simp [get_usage, h, he, Nat.not_le.mpr hlive]

/-- Witness for C2 at a concrete store, time and token. -/
theorem C2_get_usage_window_semantics_witness :
    ("dev" : String) ≠ "" ∧
    get_usage (fun _ => none) 1000 "dev" = (0, fun _ => none) ∧
    (get_usage (QuotaState.set (fun _ => none) "dev" ⟨4, 500⟩) 1000 "dev").1 = 0 ∧
    (get_usage (QuotaState.set (fun _ => none) "dev" ⟨4, 500⟩) 1000 "dev").2 "dev"
      = some ⟨0, 86400⟩ ∧
    get_usage (QuotaState.set (fun _ => none) "dev" ⟨4, 2000⟩) 1000 "dev"
      = (4, QuotaState.set (fun _ => none) "dev" ⟨4, 2000⟩) := by
  have hne : ("dev" : String) ≠ "" := by decide
  have h1 := C2_get_usage_window_semantics (fun _ => none) 1000 "dev" hne
  have h2 := C2_get_usage_window_semantics
    (QuotaState.set (fun _ => none) "dev" ⟨4, 500⟩) 1000 "dev" hne
  have h3 := C2_get_usage_window_semantics
    (QuotaState.set (fun _ => none) "dev" ⟨4, 2000⟩) 1000 "dev" hne
  refine ⟨hne, h1.1 rfl, ?_, ?_, ?_⟩
  · exact (h2.2.1 ⟨4, 500⟩ (by simp [QuotaState.set]) (by decide)).1
  · have := (h2.2.1 ⟨4, 500⟩ (by simp [QuotaState.set]) (by decide)).2.1
    simpa [get_next_midnight_utc] using this
  · exact h3.2.2 ⟨4, 2000⟩ (by simp [QuotaState.set]) (by decide)

/-- C7: `can_use` answers exactly `get_usage < limit`, over every store
state (in particular every state reachable via get/increment/reset), and
performs the same lazy-reset side effect as `get_usage`. -/
theorem C7_can_use_iff_usage_below_limit (s : QuotaState) (now : Nat)
    (tok : String) (limit : Nat) :
    ((can_use s now tok limit).1 = true ↔ (get_usage s now tok).1 < limit) ∧
    (can_use s now tok limit).2 = (get_usage s now tok).2 := by
  constructor
  · simp [can_use]
  · rfl

/-- C9: for a fresh non-empty token, `get_reset_time` returns the next UTC
midnight, and a subsequent `increment_usage` on the same UTC day installs
exactly that timestamp (with count 1). -/
theorem C9_reset_time_roundtrip (s : QuotaState) (t t2 : Nat) (tok : String)
    (h : tok ≠ "") (hfresh : s tok = none) (hday : t / 86400 = t2 / 86400) :
    ∃ r, (get_reset_time s t tok).1 = some r ∧
      (increment_usage s t2 tok).2 tok = some ⟨1, r⟩ := by
  refine ⟨get_next_midnight_utc t, ?_, ?_⟩
  · simp [get_reset_time, h, hfresh]
  · have hmid : get_next_midnight_utc t = get_next_midnight_utc t2 := by
      unfold get_next_midnight_utc
      omega
    have hlt : t2 < get_next_midnight_utc t2 := now_lt_next_midnight t2
    simp only [increment_usage, h, if_neg h, hfresh]
    simp [QuotaState.set, hmid, Nat.not_le.mpr hlt]

/-- Witness for C9 at a fresh token, with the two calls at distinct
instants of the same UTC day. -/
theorem C9_reset_time_roundtrip_witness :
    ("freshdev" : String) ≠ "" ∧ (fun (_ : String) => (none : Option QuotaEntry)) "freshdev" = none ∧
    (1000 : Nat) / 86400 = (5000 : Nat) / 86400 ∧
    ∃ r, (get_reset_time (fun _ => none) 1000 "freshdev").1 = some r ∧
      (increment_usage (fun _ => none) 5000 "freshdev").2 "freshdev" = some ⟨1, r⟩ :=
  ⟨by decide, rfl, by decide,
    C9_reset_time_roundtrip (fun _ => none) 1000 5000 "freshdev"
      (by decide) rfl (by decide)⟩

/-- Python `str.startswith`, over the character data of the strings
(structurally recursive so that concrete instances evaluate). -/
def startswith (s p : String) : Bool := p.data.isPrefixOf s.data

/-- Python slicing `s[n:]`: drop the first `n` characters. -/
def drop_chars (s : String) (n : Nat) : String := ⟨s.data.drop n⟩

/-- Python `len(s)`. -/
def strlen (s : String) : Nat := s.data.length

/-- Python `str.strip()`: remove leading and trailing whitespace. -/
def strip (s : String) : String :=
  ⟨((s.data.dropWhile Char.isWhitespace).reverse.dropWhile
      Char.isWhitespace).reverse⟩

/-- An HTTP response as the middleware sees it: status code plus headers. -/
structure HttpResponse where
  status : Nat
  headers : List (String × String)
  deriving DecidableEq, Repr

/-- `QuotaMiddleware.protected_paths`. -/
def protected_paths : List String := ["/v1/generate"]

/-- `QuotaMiddleware._extract_device_token`: requires a `Bearer ` header
whose remainder is at least 8 characters. -/
def extract_device_token (auth : Option String) : Option String :=
  match auth with
  | none => none
  | some a =>
    if a = "" then none
    else if startswith a "Bearer " then
      let tok := drop_chars a 7
      if strlen tok < 8 then none else some tok
    else none

/-- `QuotaMiddleware.dispatch`. The downstream application (`call_next`)
is passed in as the response it would produce; `now` is the wall clock at
dispatch time. Returns the outgoing response and the quota store state
after the request. -/
def dispatch (s : QuotaState) (now : Nat) (path : String) (auth : Option String)
    (free_tier_limit : Nat) (downstream : HttpResponse) :
    HttpResponse × QuotaState :=
  if ¬ (protected_paths.any (fun p => startswith path p)) then (downstream, s)
  else
    match extract_device_token auth with
    | none => (downstream, s)
    | some tok =>
      let c := can_use s now tok free_tier_limit
      if c.1 = false then
        let rt := get_reset_time c.2 now tok
        let u := get_usage rt.2 now tok
        let resp : HttpResponse :=
          ⟨429,
            [("X-RateLimit-Limit", toString free_tier_limit),
             ("X-RateLimit-Remaining", "0")] ++
            (match rt.1 with
             | some r => [("X-RateLimit-Reset", toString r),
                          ("Retry-After", toString (r - now))]
             | none => [("X-RateLimit-Reset", ""), ("Retry-After", "86400")])⟩
        (resp, u.2)
      else
        if 200 ≤ downstream.status ∧ downstream.status < 300 then
          let inc := increment_usage c.2 now tok
          let remaining := free_tier_limit - inc.1
          let rt := get_reset_time inc.2 now tok
          let hdrs := downstream.headers ++
            [("X-RateLimit-Limit", toString free_tier_limit),
             ("X-RateLimit-Remaining", toString remaining)] ++
            (match rt.1 with
             | some r => [("X-RateLimit-Reset", toString r)]
             | none => [])
          (⟨downstream.status, hdrs⟩, rt.2)
        else (downstream, c.2)

/-- A resolved device token is never the empty string. -/
theorem extract_device_token_ne_empty (auth : Option String) (tok : String)
    (h : extract_device_token auth = some tok) : tok ≠ "" := by
  match auth with
  | none => simp [extract_device_token] at h
  | some a =>
    simp only [extract_device_token] at h
    by_cases h0 : a = ""
    · simp [h0] at h
    · simp only [h0, if_false] at h
      by_cases h1 : startswith a "Bearer "
      · simp only [h1, if_true] at h
        by_cases h2 : strlen (drop_chars a 7) < 8
        · simp [h2] at h
        · simp only [h2, if_false, Option.some.injEq] at h
          intro hemp
          rw [hemp] at h
          rw [h] at h2
          simp [strlen] at h2
      · simp [h1] at h

/-- `get_usage` is stable: re-reading at the same instant returns the
same count and leaves the (possibly lazily reset) state fixed. -/
theorem get_usage_stable (s : QuotaState) (now : Nat) (tok : String) :
    get_usage (get_usage s now tok).2 now tok =
      ((get_usage s now tok).1, (get_usage s now tok).2) := by
  by_cases h : tok = ""
  · simp [get_usage, h]
  · match hs : s tok with
    | none => simp [get_usage, h, hs]
    | some e =>
      by_cases hexp : e.reset_time ≤ now
      · have hlt : now < get_next_midnight_utc now := now_lt_next_midnight now
        simp [get_usage, h, hs, hexp, QuotaState.set, Nat.not_le.mpr hlt]
      · simp [get_usage, h, hs, hexp]

/-- `increment_usage` right after `get_usage` at the same instant adds
exactly one: both the returned count and the count observed by a further
`get_usage` are the old observed usage plus one. -/
theorem increment_after_get_usage (s : QuotaState) (now : Nat) (tok : String)
    (h : tok ≠ "") :
    (increment_usage (get_usage s now tok).2 now tok).1
        = (get_usage s now tok).1 + 1 ∧
    (get_usage (increment_usage (get_usage s now tok).2 now tok).2 now tok).1
        = (get_usage s now tok).1 + 1 := by
  have hlt : now < get_next_midnight_utc now := now_lt_next_midnight now
  match hs : s tok with
  | none =>
    simp [get_usage, increment_usage, h, hs, QuotaState.set, Nat.not_le.mpr hlt]
  | some e =>
    by_cases hexp : e.reset_time ≤ now
    · simp [get_usage, increment_usage, h, hs, hexp, QuotaState.set,
        Nat.not_le.mpr hlt]
    · simp [get_usage, increment_usage, h, hs, hexp, QuotaState.set,
        Nat.not_le.mpr (Nat.not_le.mp hexp)]

/-- `get_reset_time` never mutates the store. -/
theorem get_reset_time_state_id (s : QuotaState) (now : Nat) (tok : String) :
    (get_reset_time s now tok).2 = s := by
  by_cases h : tok = ""
  · simp [get_reset_time, h]
  · match hs : s tok with
    | none => simp [get_reset_time, h, hs]
    | some e => simp [get_reset_time, h, hs]

/-- For a non-empty token `get_reset_time` always yields a timestamp. -/
theorem get_reset_time_isSome (s : QuotaState) (now : Nat) (tok : String)
    (h : tok ≠ "") : ∃ r, (get_reset_time s now tok).1 = some r := by
  match hs : s tok with
  | none => exact ⟨get_next_midnight_utc now, by simp [get_reset_time, h, hs]⟩
  | some e => exact ⟨e.reset_time, by simp [get_reset_time, h, hs]⟩

/-- C1: on a protected path with a resolved device token that the gate
allows through, the usage observed after `dispatch` is the usage observed
before plus one exactly when the downstream response is 2xx, and is
unchanged for every non-2xx downstream outcome. -/
theorem C1_increment_iff_downstream_2xx (s : QuotaState) (now : Nat)
    (path : String) (auth : Option String) (limit : Nat)
    (downstream : HttpResponse) (tok : String)
    (hprot : protected_paths.any (fun p => startswith path p) = true)
    (htok : extract_device_token auth = some tok)
    (hallow : (can_use s now tok limit).1 = true) :
    (get_usage (dispatch s now path auth limit downstream).2 now tok).1
      = (get_usage s now tok).1 +
        (if 200 ≤ downstream.status ∧ downstream.status < 300 then 1 else 0) := by
  have hne := extract_device_token_ne_empty auth tok htok
  by_cases h2 : 200 ≤ downstream.status ∧ downstream.status < 300
  · simp only [dispatch, hprot, htok, hallow, h2]
    simp only [not_true, if_false, if_true]
    simp [get_reset_time_state_id]
    exact (increment_after_get_usage s now tok hne).2
  · simp only [dispatch, hprot, htok, hallow, h2]
    simp only [not_true, if_false]
    simp
    show (get_usage (get_usage s now tok).2 now tok).1 = (get_usage s now tok).1
    rw [get_usage_stable]

/-- Witness for C1: a fresh device on the protected path with a 2xx
downstream outcome ends at usage 1 = 0 + 1. -/
theorem C1_increment_iff_downstream_2xx_witness :
    protected_paths.any (fun p => startswith "/v1/generate" p) = true ∧
    extract_device_token (some "Bearer deviceAAA") = some "deviceAAA" ∧
    (can_use (fun _ => none) 0 "deviceAAA" 5).1 = true ∧
    (get_usage
        (dispatch (fun _ => none) 0 "/v1/generate" (some "Bearer deviceAAA") 5
          ⟨200, []⟩).2 0 "deviceAAA").1
      = (get_usage (fun _ => none) 0 "deviceAAA").1 +
        (if 200 ≤ (200 : Nat) ∧ (200 : Nat) < 300 then 1 else 0) :=
  ⟨by decide, by decide, by decide,
    C1_increment_iff_downstream_2xx (fun _ => none) 0 "/v1/generate"
      (some "Bearer deviceAAA") 5 ⟨200, []⟩ "deviceAAA"
      (by decide) (by decide) (by decide)⟩

/-- C5 counterexample: a metered request (protected path, resolved token,
gate allows it through) whose downstream outcome is a 400 failure is
returned with NO usage-accounting headers at all, refuting the claim that
every metered response carries them regardless of outcome. -/
theorem C5_counterexample_failed_downstream_has_no_headers :
    protected_paths.any (fun p => startswith "/v1/generate" p) = true ∧
    extract_device_token (some "Bearer deviceAAA") = some "deviceAAA" ∧
    (can_use (fun _ => none) 0 "deviceAAA" 5).1 = true ∧
    (dispatch (fun _ => none) 0 "/v1/generate" (some "Bearer deviceAAA") 5
        ⟨400, []⟩).1 = ⟨400, []⟩ := by
  refine ⟨by decide, by decide, by decide, by decide⟩

/-- C5 amended: for every metered request (protected path, resolved
token, gate allows), a 2xx downstream outcome gets the three
usage-accounting headers appended (limit, remaining floored at 0 by
truncated subtraction, reset timestamp), and every non-2xx downstream
outcome passes through completely unchanged, with no usage headers
added. -/
theorem C5_headers_on_successful_metered_response (s : QuotaState) (now : Nat)
    (path : String) (auth : Option String) (limit : Nat)
    (downstream : HttpResponse) (tok : String)
    (hprot : protected_paths.any (fun p => startswith path p) = true)
    (htok : extract_device_token auth = some tok)
    (hallow : (can_use s now tok limit).1 = true) :
    ((200 ≤ downstream.status ∧ downstream.status < 300) →
      ∃ rst : Nat,
      (dispatch s now path auth limit downstream).1.status = downstream.status ∧
      (dispatch s now path auth limit downstream).1.headers
        = downstream.headers ++
          [("X-RateLimit-Limit", toString limit),
           ("X-RateLimit-Remaining",
             toString (limit - (increment_usage (can_use s now tok limit).2
               now tok).1)),
           ("X-RateLimit-Reset", toString rst)]) ∧
    (¬ (200 ≤ downstream.status ∧ downstream.status < 300) →
      (dispatch s now path auth limit downstream).1 = downstream) := by
  have hne := extract_device_token_ne_empty auth tok htok
  constructor
  · intro h2xx
    obtain ⟨r, hr⟩ := get_reset_time_isSome
      (increment_usage (can_use s now tok limit).2 now tok).2 now tok hne
    refine ⟨r, ?_, ?_⟩
    · simp only [dispatch, hprot, htok, hallow, h2xx]
      rw [hr]
      simp
    · simp only [dispatch, hprot, htok, hallow, h2xx]
      rw [hr]
      simp
  · intro hno
    simp only [dispatch, hprot, htok, hallow]
    simp [hno]

/-- Witness for the amended C5, exercising both halves: a concrete 200
response gains the three headers, and a concrete 418 response passes
through unchanged. -/
theorem C5_headers_on_successful_metered_response_witness :
    protected_paths.any (fun p => startswith "/v1/generate" p) = true ∧
    extract_device_token (some "Bearer deviceAAA") = some "deviceAAA" ∧
    (can_use (fun _ => none) 0 "deviceAAA" 5).1 = true ∧
    (∃ rst : Nat,
      (dispatch (fun _ => none) 0 "/v1/generate" (some "Bearer deviceAAA") 5
          ⟨200, [("Content-Type", "application/json")]⟩).1.status = 200 ∧
      (dispatch (fun _ => none) 0 "/v1/generate" (some "Bearer deviceAAA") 5
          ⟨200, [("Content-Type", "application/json")]⟩).1.headers
        = [("Content-Type", "application/json")] ++
          [("X-RateLimit-Limit", toString (5 : Nat)),
           ("X-RateLimit-Remaining",
             toString ((5 : Nat) - (increment_usage
               (can_use (fun _ => none) 0 "deviceAAA" 5).2 0 "deviceAAA").1)),
           ("X-RateLimit-Reset", toString rst)]) ∧
    (dispatch (fun _ => none) 0 "/v1/generate" (some "Bearer deviceAAA") 5
        ⟨418, [("Content-Type", "application/json")]⟩).1
      = ⟨418, [("Content-Type", "application/json")]⟩ :=
  ⟨by decide, by decide, by decide,
    (C5_headers_on_successful_metered_response (fun _ => none) 0 "/v1/generate"
      (some "Bearer deviceAAA") 5 ⟨200, [("Content-Type", "application/json")]⟩
      "deviceAAA" (by decide) (by decide) (by decide)).1 (by decide),
    (C5_headers_on_successful_metered_response (fun _ => none) 0 "/v1/generate"
      (some "Bearer deviceAAA") 5 ⟨418, [("Content-Type", "application/json")]⟩
      "deviceAAA" (by decide) (by decide) (by decide)).2 (by decide)⟩

/-- Structured diagnostic detail attached by one moderation sub-check. -/
inductive CheckDetail where
  | error (msg : String)
  | openaiDetail (flagged : Bool) (flagged_categories : List String)
      (harassment sexual violence hate : ℚ)
  | regexDetail (violations : List String)
  | blocklistDetail (blocked_terms_found : List String)
  deriving DecidableEq, Repr

/-- The detail mapping returned by `moderate_content`: the empty-input
reason, or the three per-check details plus the overall verdict. -/
inductive ModerationDetails where
  | empty_content
  | checks (openai regex blocklist : CheckDetail) (overall_safe : Bool)
  deriving DecidableEq, Repr

/-- `results[i] if not isinstance(results[i], Exception) else (True,
{"error": str(results[i])})`: a sub-check that raised is folded in as
safe, its error captured. -/
def extract_subcheck (r : Except String (Bool × CheckDetail)) :
    Bool × CheckDetail :=
  match r with
  | .ok v => v
  | .error e => (true, .error e)

/-- `ModerationService.moderate_content`. The three sub-check runs from
`asyncio.gather(..., return_exceptions=True)` are passed in as
`Except`-valued outcomes (the provider check is an external call; a raised
exception is the `.error` case). -/
def moderate_content (text : String)
    (openai_r regex_r blocklist_r : Except String (Bool × CheckDetail)) :
    Bool × ModerationDetails :=
  if text = "" ∨ strip text = "" then (true, .empty_content)
  else
    let o := extract_subcheck openai_r
    let rg := extract_subcheck regex_r
    let b := extract_subcheck blocklist_r
    let is_safe := o.1 && rg.1 && b.1
    (is_safe, .checks o.2 rg.2 b.2 is_safe)

/-- `ModerationService.HARASSMENT_THRESHOLD`. -/
def HARASSMENT_THRESHOLD : ℚ := 9/10

/-- `ModerationService.SEXUAL_THRESHOLD`. -/
def SEXUAL_THRESHOLD : ℚ := 9/10

/-- `ModerationService.VIOLENCE_THRESHOLD`. -/
def VIOLENCE_THRESHOLD : ℚ := 95/100

/-- Per-category scores of the provider's moderation result. -/
structure CategoryScores where
  harassment : ℚ
  sexual : ℚ
  violence : ℚ
  hate : ℚ
  deriving DecidableEq, Repr

/-- `response.results[0]` of the provider call: binary flag plus scores. -/
structure ModerationApiResult where
  flagged : Bool
  category_scores : CategoryScores
  deriving DecidableEq, Repr

/-- `ModerationService._openai_moderation`: uninitialized client and
provider errors are fail-open; otherwise categories are flagged by strict
threshold comparison and the verdict is "no category flagged". -/
def openai_moderation (client_initialized : Bool)
    (api : Except String ModerationApiResult) : Bool × CheckDetail :=
  if ¬ client_initialized then
    (true, .error "moderation_client_not_initialized")
  else
    match api with
    | .error e => (true, .error ("moderation_api_error: " ++ e))
    | .ok result =>
      let scores := result.category_scores
      let flagged_categories :=
        (if HARASSMENT_THRESHOLD < scores.harassment then ["harassment"]
         else []) ++
        (if SEXUAL_THRESHOLD < scores.sexual then ["sexual"] else []) ++
        (if VIOLENCE_THRESHOLD < scores.violence then ["violence"] else [])
      (decide (flagged_categories.length = 0),
        .openaiDetail result.flagged flagged_categories
          scores.harassment scores.sexual scores.violence scores.hate)

/-- C8: empty or whitespace-only input is declared safe with the
`empty_content` reason, independently of all three sub-check outcomes
(none of them is consulted). -/
theorem C8_whitespace_input_bypasses_subchecks (text : String)
    (r1 r2 r3 : Except String (Bool × CheckDetail))
    (h : strip text = "") :
    moderate_content text r1 r2 r3 = (true, .empty_content) := by
  simp [moderate_content, h]

/-- Witness for C8: whitespace-only input is safe even when every
sub-check outcome supplied is unsafe or an exception. -/
theorem C8_whitespace_input_bypasses_subchecks_witness :
    strip "   " = "" ∧
    moderate_content "   " (.error "boom")
      (.ok (false, .regexDetail ["phone_number"]))
      (.ok (false, .blocklistDetail ["harm"])) = (true, .empty_content) :=
  ⟨by decide,
    C8_whitespace_input_bypasses_subchecks "   " (.error "boom")
      (.ok (false, .regexDetail ["phone_number"]))
      (.ok (false, .blocklistDetail ["harm"])) (by decide)⟩

/-- C3: on non-blank input the overall verdict is the conjunction of the
three sub-check verdicts; a sub-check that raised is folded in as safe
(fail-open) with its error recorded in its slot of the detail mapping,
and never prevents the other two from contributing. -/
theorem C3_verdict_is_and_of_subchecks_failopen (text : String)
    (r1 r2 r3 : Except String (Bool × CheckDetail))
    (hne : strip text ≠ "") :
    (moderate_content text r1 r2 r3).1
      = ((extract_subcheck r1).1 && (extract_subcheck r2).1 &&
          (extract_subcheck r3).1) ∧
    (moderate_content text r1 r2 r3).2
      = .checks (extract_subcheck r1).2 (extract_subcheck r2).2
          (extract_subcheck r3).2 (moderate_content text r1 r2 r3).1 ∧
    (∀ e, extract_subcheck (.error e) = (true, .error e)) := by
  have htext : ¬ (text = "" ∨ strip text = "") := by
    intro hc
    rcases hc with hc | hc
    · exact hne (by rw [hc]; rfl)
    · exact hne hc
  refine ⟨?_, ?_, fun e => rfl⟩
  · simp [moderate_content, htext]
  · simp [moderate_content, htext]

/-- Witness for C3: one raising, one safe and one unsafe sub-check on a
non-blank input combine to an unsafe verdict with the error recorded. -/
theorem C3_verdict_is_and_of_subchecks_failopen_witness :
    strip "hello" ≠ "" ∧
    (moderate_content "hello" (.error "boom") (.ok (true, .regexDetail []))
        (.ok (false, .blocklistDetail ["harm"]))).1
      = ((extract_subcheck (.error "boom")).1 &&
          (extract_subcheck (.ok (true, .regexDetail []))).1 &&
          (extract_subcheck (.ok (false, .blocklistDetail ["harm"]))).1) ∧
    (moderate_content "hello" (.error "boom") (.ok (true, .regexDetail []))
        (.ok (false, .blocklistDetail ["harm"]))).2
      = .checks (extract_subcheck (.error "boom")).2
          (extract_subcheck (.ok (true, .regexDetail []))).2
          (extract_subcheck (.ok (false, .blocklistDetail ["harm"]))).2
          (moderate_content "hello" (.error "boom")
            (.ok (true, .regexDetail []))
            (.ok (false, .blocklistDetail ["harm"]))).1 ∧
    (∀ e, extract_subcheck (.error e) = (true, .error e)) :=
  ⟨by decide,
    (C3_verdict_is_and_of_subchecks_failopen "hello" (.error "boom")
      (.ok (true, .regexDetail [])) (.ok (false, .blocklistDetail ["harm"]))
      (by decide)).1,
    (C3_verdict_is_and_of_subchecks_failopen "hello" (.error "boom")
      (.ok (true, .regexDetail [])) (.ok (false, .blocklistDetail ["harm"]))
      (by decide)).2.1,
    fun e => rfl⟩

/-- C6: in the provider sub-check a category is flagged iff its score
strictly exceeds its fixed threshold (harassment 0.90, sexual 0.90,
violence 0.95), whatever the provider's own binary `flagged` field says;
the verdict is safe exactly when the flagged list is empty; and a
provider error yields a safe verdict with the error text recorded. -/
theorem C6_provider_thresholds (fl : Bool) (h s v ht : ℚ) :
    (∃ cats,
      (openai_moderation true (.ok ⟨fl, ⟨h, s, v, ht⟩⟩)).2
        = .openaiDetail fl cats h s v ht ∧
      ("harassment" ∈ cats ↔ HARASSMENT_THRESHOLD < h) ∧
      ("sexual" ∈ cats ↔ SEXUAL_THRESHOLD < s) ∧
      ("violence" ∈ cats ↔ VIOLENCE_THRESHOLD < v) ∧
      ((openai_moderation true (.ok ⟨fl, ⟨h, s, v, ht⟩⟩)).1 = true ↔
        cats = [])) ∧
    (∀ e, openai_moderation true (.error e)
      = (true, .error ("moderation_api_error: " ++ e))) := by
  constructor
  · refine ⟨(if HARASSMENT_THRESHOLD < h then ["harassment"] else []) ++
      (if SEXUAL_THRESHOLD < s then ["sexual"] else []) ++
      (if VIOLENCE_THRESHOLD < v then ["violence"] else []), ?_, ?_, ?_, ?_, ?_⟩
    · rfl
    · by_cases h1 : HARASSMENT_THRESHOLD < h <;>
        by_cases h2 : SEXUAL_THRESHOLD < s <;>
        by_cases h3 : VIOLENCE_THRESHOLD < v <;>
        simp_all
    · by_cases h1 : HARASSMENT_THRESHOLD < h <;>
        by_cases h2 : SEXUAL_THRESHOLD < s <;>
        by_cases h3 : VIOLENCE_THRESHOLD < v <;>
        simp_all
    · by_cases h1 : HARASSMENT_THRESHOLD < h <;>
        by_cases h2 : SEXUAL_THRESHOLD < s <;>
        by_cases h3 : VIOLENCE_THRESHOLD < v <;>
        simp_all
    · simp only [openai_moderation, not_true, if_false,
        decide_eq_true_eq, List.length_eq_zero]
  · intro e
    rfl

/-- `GenerationMode` from `backend/schemas.py`. -/
inductive GenerationMode where
  | pickup
  | reply
  deriving DecidableEq, Repr

/-- `StylePreset` from `backend/schemas.py`. -/
inductive StylePreset where
  | spicy
  | safe
  | funny
  deriving DecidableEq, Repr

/-- `PromptTemplates.get_expected_count`. -/
def get_expected_count : GenerationMode → Nat
  | .pickup => 3
  | .reply => 2

/-- `PromptTemplates.get_max_tokens`. -/
def get_max_tokens : GenerationMode → Nat
  | .pickup => 100
  | .reply => 70

/-- `PromptTemplates.get_temperature`. -/
def get_temperature : StylePreset → ℚ
  | .safe => 7/10
  | .spicy => 8/10
  | .funny => 9/10

/-- Python `str.split('\n')` over character data. -/
def split_newlines : List Char → List (List Char)
  | [] => [[]]
  | c :: rest =>
    match split_newlines rest with
    | [] => [[c]]
    | l :: ls => if c = '\n' then [] :: l :: ls else (c :: l) :: ls

/-- The lines of a string, as strings. -/
def split_lines (text : String) : List String :=
  (split_newlines text.data).map (fun cs => ⟨cs⟩)

/-- The cleanup loop of `generate_content` step 5: for each completion
with non-blank content, split on line breaks, keep the non-blank lines
stripped, and extend the accumulated choices. -/
def clean_choices (generated_texts : List String) : List String :=
  generated_texts.foldl
    (fun choices text =>
      if text ≠ "" ∧ strip text ≠ "" then
        choices ++ ((split_lines (strip text)).filter
          (fun line => strip line ≠ "")).map strip
      else choices) []

/-- Pickup padding fallback appended when the model came up short. -/
def pickup_fallback : String := "I'd love to know more about you!"

/-- Reply padding fallback appended when the model came up short. -/
def reply_fallback : String := "That's interesting! Tell me more."

/-- Pickup substitute for a generated choice flagged after generation. -/
def pickup_moderated_fallback : String := "I'd love to get to know you better!"

/-- Reply substitute for a generated choice flagged after generation. -/
def reply_moderated_fallback : String := "That sounds great!"

/-- The `while len(choices) < expected_count` padding loop. -/
def pad_choices (choices : List String) (mode : GenerationMode) : List String :=
  choices ++ List.replicate (get_expected_count mode - choices.length)
    (if mode = .pickup then pickup_fallback else reply_fallback)

/-- `choices = choices[:expected_count]`. -/
def truncate_choices (choices : List String) (mode : GenerationMode) :
    List String :=
  (choices.take (get_expected_count mode))

/-- Steps 5-7 of the pipeline: clean, pad to, and truncate at the
expected count. -/
def process_choices (generated_texts : List String) (mode : GenerationMode) :
    List String :=
  truncate_choices (pad_choices (clean_choices generated_texts) mode) mode

/-- Step 8 (post-generation re-moderation): keep each choice whose
per-choice `moderate_content` verdict (abstracted as `post_safe`) is
safe, substitute the mode-specific moderated fallback otherwise. -/
def remoderate_choices (choices : List String) (post_safe : String → Bool)
    (mode : GenerationMode) : List String :=
  choices.map (fun c =>
    if post_safe c then c
    else if mode = .pickup then pickup_moderated_fallback
    else reply_moderated_fallback)

/-- Outcome of one `POST /v1/generate` request past schema validation.
`content_rejected` is the 400 CONTENT_UNSAFE response,
`service_unavailable` the 503 for a missing LLM service,
`generation_failed` the 503 for a raising provider call. -/
inductive PipelineOutcome where
  | content_rejected (details : ModerationDetails)
  | service_unavailable
  | generation_failed
  | success (choices : List String) (style : StylePreset)
      (mode : GenerationMode)
  deriving DecidableEq, Repr

/-- Steps 3-9 of `generate_content` after the input-moderation gate:
LLM availability check, generation, clean/pad/truncate, and (only when
the moderation singleton exists) per-choice re-moderation. -/
def generate_rest (moderation_available : Bool) (llm_available : Bool)
    (llm : Except String (List String)) (post_safe : String → Bool)
    (mode : GenerationMode) (style : StylePreset) : PipelineOutcome :=
  if ¬ llm_available then .service_unavailable
  else
    match llm with
    | .error _ => .generation_failed
    | .ok texts =>
      let choices := process_choices texts mode
      let final :=
        if moderation_available then remoderate_choices choices post_safe mode
        else choices
      .success final style mode

/-- `generate_content` from `backend/routers/generate.py` (the
INVALID_MODE branch is unreachable for the two-constructor mode enum).
`moderation_available` is `moderation_service is not None`; the input
sub-check outcomes and the per-choice post verdict are passed in as with
`moderate_content`. -/
def generate_content (moderation_available : Bool)
    (input_r1 input_r2 input_r3 : Except String (Bool × CheckDetail))
    (llm_available : Bool) (llm : Except String (List String))
    (post_safe : String → Bool) (mode : GenerationMode) (style : StylePreset)
    (context : String) : PipelineOutcome :=
  if moderation_available then
    let m := moderate_content context input_r1 input_r2 input_r3
    if m.1 = false then .content_rejected m.2
    else generate_rest true llm_available llm post_safe mode style
  else generate_rest false llm_available llm post_safe mode style

/-- C4: the expected count is 3 for pickup and 2 for reply, and for every
list of raw completions the cleaned/padded/truncated choice list — and
its re-moderated image — has exactly that length. -/
theorem C4_choices_exact_expected_count (generated_texts : List String)
    (mode : GenerationMode) (post_safe : String → Bool) :
    get_expected_count .pickup = 3 ∧
    get_expected_count .reply = 2 ∧
    (process_choices generated_texts mode).length = get_expected_count mode ∧
    (remoderate_choices (process_choices generated_texts mode) post_safe
        mode).length = get_expected_count mode := by
  have hlen : (process_choices generated_texts mode).length
      = get_expected_count mode := by
    have hpos : 0 < get_expected_count mode := by
      cases mode <;> simp [get_expected_count]
    simp only [process_choices, truncate_choices, pad_choices,
      List.length_take, List.length_append, List.length_replicate]
    omega
  refine ⟨rfl, rfl, hlen, ?_⟩
  rw [remoderate_choices, List.length_map, hlen]

/-- C10: with the moderation singleton absent, the pipeline never rejects
input and never substitutes after generation — for every context and
every would-be sub-check outcome it returns the processed choices
untouched. -/
theorem C10_missing_moderation_is_whole_classifier_failopen
    (input_r1 input_r2 input_r3 : Except String (Bool × CheckDetail))
    (post_safe : String → Bool) (mode : GenerationMode) (style : StylePreset)
    (context : String) (texts : List String) :
    generate_content false input_r1 input_r2 input_r3 true (.ok texts)
        post_safe mode style context
      = .success (process_choices texts mode) style mode := by
  simp [generate_content, generate_rest]
